import Mathlib

/-!
Verification of the blog application (models, serializers, filters, views,
urls) as a shallow embedding. Pure Lean functions translate the Django
request handlers: the database is an explicit record of authors, posts and
comments, a caller identity is `Option Nat` (`none` = anonymous), and each
endpoint is a function from database and request to database and response.
-/

namespace Blog

/-- Post.STATUS_CHOICES in models.py: draft or published. -/
inductive Status where
  | draft
  | published
deriving DecidableEq, Repr

/-- Author model (models.py): name, unique email, optional linked user
(ForeignKey to User with SET_NULL). Timestamps are omitted; nothing in the
handlers reads them. -/
structure Author where
  id : Nat
  name : String
  email : String
  user : Option Nat
deriving DecidableEq, Repr

/-- Post model (models.py): title, content, published_date (dates modelled
as Nat), required author foreign key, status with default draft, active
with default true, created_at. -/
structure Post where
  id : Nat
  title : String
  content : String
  published_date : Nat
  authorId : Nat
  status : Status
  active : Bool
  created_at : Nat
deriving DecidableEq, Repr

/-- Comment model (models.py): required post foreign key, content, optional
linked user (SET_NULL), created timestamp, is_approved defaulting to
false. -/
structure Comment where
  id : Nat
  postId : Nat
  content : String
  user : Option Nat
  created : Nat
  is_approved : Bool
deriving DecidableEq, Repr

/-- The relational store: the three tables. -/
structure Db where
  authors : List Author
  posts : List Post
  comments : List Comment
deriving DecidableEq, Repr

/-- HTTP methods that reach the handlers under study. -/
inductive Method where
  | GET
  | HEAD
  | OPTIONS
  | POST
  | PUT
  | PATCH
  | DELETE
deriving DecidableEq, Repr

/-- rest_framework permissions.SAFE_METHODS = (GET, HEAD, OPTIONS). -/
def Method.isSafe : Method → Bool
  | .GET => true
  | .HEAD => true
  | .OPTIONS => true
  | _ => false

/-- Outcome of an API request, carrying the response payload on success.
forbidden is HTTP 403, notFound 404, badRequest a 400 validation failure
with its message. -/
inductive ApiResult (α : Type) where
  | forbidden
  | notFound
  | badRequest (msg : String)
  | ok (a : α)
deriving DecidableEq, Repr

/-- PostListView.get_queryset (views.py): the web list page shows posts
filtered by active=True, status=published. -/
def postListView_queryset (db : Db) : List Post :=
  db.posts.filter (fun p => p.active && p.status == Status.published)

/-- PostDetailView.get_queryset (views.py): the web detail page draws from
the same active published filter. -/
def postDetailView_queryset (db : Db) : List Post :=
  db.posts.filter (fun p => p.active && p.status == Status.published)

/-- PostListCreateAPIView.get_queryset (views.py): the API list filters on
active=True only. -/
def postListCreateAPIView_queryset (db : Db) : List Post :=
  db.posts.filter (fun p => p.active)

/-- PostDetailAPIView.get_queryset (views.py): the API detail draws from
posts filtered on active=True only. -/
def postDetailAPIView_queryset (db : Db) : List Post :=
  db.posts.filter (fun p => p.active)

/-- DetailView / RetrieveAPIView object lookup: the object with the
requested pk inside the queryset, a 404 when absent. -/
def postDetailView_get_object (db : Db) (pk : Nat) : Option Post :=
  (postDetailView_queryset db).find? (fun p => p.id == pk)

/-- RetrieveAPIView object lookup for the API detail endpoint. -/
def postDetailAPIView_get_object (db : Db) (pk : Nat) : Option Post :=
  (postDetailAPIView_queryset db).find? (fun p => p.id == pk)

/-- Look up the owning Author record of a post (post.author: the foreign
key is required, so on well-formed data this is never none). -/
def postAuthor (db : Db) (p : Post) : Option Author :=
  db.authors.find? (fun a => a.id == p.authorId)

/-- IsAuthenticated.has_permission: the request carries an authenticated
identity. -/
def isAuthenticated (caller : Option Nat) : Bool :=
  caller.isSome

/-- IsOwnerOrReadOnly.has_object_permission (views.py): read permissions
for any request; write permissions only when obj.author.user equals
request.user. An anonymous request.user (AnonymousUser) equals no stored
user and not None either, so the owner branch is false for it. -/
def has_object_permission (db : Db) (m : Method) (caller : Option Nat) (p : Post) : Bool :=
  if m.isSafe then
    true
  else
    match postAuthor db p with
    | none => false
    | some a =>
      match caller with
      | none => false
      | some u => a.user == some u

/-- A JSON-ish field value in a request body. -/
inductive FieldVal where
  | str (s : String)
  | boolean (b : Bool)
  | num (n : Nat)
deriving DecidableEq, Repr

/-- A request body: an association list from field names to values.
Serializers read only their declared fields from it. -/
def Body := List (String × FieldVal)

/-- First value bound to a key in the body. -/
def lookupField (body : Body) (k : String) : Option FieldVal :=
  (body.find? (fun kv => kv.fst == k)).map Prod.snd

/-- Deserialize an optional CharField from a PATCH body: absent is fine
(partial update), a string validates, any other type is a validation
error. -/
def getStrField (body : Body) (k : String) : Option (Option String) :=
  match lookupField body k with
  | none => some none
  | some (FieldVal.str s) => some (some s)
  | some _ => none

/-- Deserialize an optional BooleanField from a PATCH body. -/
def getBoolField (body : Body) (k : String) : Option (Option Bool) :=
  match lookupField body k with
  | none => some none
  | some (FieldVal.boolean b) => some (some b)
  | some _ => none

/-- The validated data of PostUpdateSerializer: its Meta.fields are
exactly title, content and active. -/
structure UpdateData where
  title : Option String
  content : Option String
  active : Option Bool
deriving DecidableEq, Repr

/-- PostUpdateSerializer validation on a PATCH body: only the declared
fields title, content, active are read; every other key in the body is
ignored; a type mismatch on a declared field is a 400. -/
def postUpdateSerializer_validate (body : Body) : Option UpdateData := do
  let t ← getStrField body "title"
  let c ← getStrField body "content"
  let a ← getBoolField body "active"
  pure ⟨t, c, a⟩

/-- ModelSerializer.update: set each validated field on the instance,
leave every other column as it was. -/
def applyUpdate (p : Post) (d : UpdateData) : Post :=
  { p with
    title := d.title.getD p.title
    content := d.content.getD p.content
    active := d.active.getD p.active }

/-- Replace the stored row with the saved instance (instance.save() after
an update: the row with that pk takes the new field values). -/
def savePost (db : Db) (p : Post) : Db :=
  { db with posts := db.posts.map (fun q => if q.id == p.id then p else q) }

/-- PATCH /api/posts/pk/edit/ (PostUpdateAPIView, views.py): permission
classes IsAuthenticated and IsOwnerOrReadOnly over queryset
Post.objects.all(). DRF checks has_permission before object retrieval, so
an anonymous caller gets 403 before any lookup; then get_object 404s on a
missing pk; then has_object_permission gates the write; then
PostUpdateSerializer validates and saves. -/
def postUpdateAPIView (db : Db) (caller : Option Nat) (pk : Nat) (body : Body) :
    Db × ApiResult Post :=
  if !(isAuthenticated caller) then
    (db, ApiResult.forbidden)
  else
    match db.posts.find? (fun p => p.id == pk) with
    | none => (db, ApiResult.notFound)
    | some post =>
      if has_object_permission db Method.PATCH caller post then
        match postUpdateSerializer_validate body with
        | none => (db, ApiResult.badRequest "Invalid field value.")
        | some d =>
          let saved := applyUpdate post d
          (savePost db saved, ApiResult.ok saved)
      else
        (db, ApiResult.forbidden)

/-- DELETE /api/posts/pk/delete/ (PostDeleteAPIView, views.py): same
permission classes over Post.objects.all(); on success the row is deleted
and its comments cascade away (Comment.post has on_delete=CASCADE). -/
def postDeleteAPIView (db : Db) (caller : Option Nat) (pk : Nat) :
    Db × ApiResult Unit :=
  if !(isAuthenticated caller) then
    (db, ApiResult.forbidden)
  else
    match db.posts.find? (fun p => p.id == pk) with
    | none => (db, ApiResult.notFound)
    | some post =>
      if has_object_permission db Method.DELETE caller post then
        ({ db with
            posts := db.posts.filter (fun q => !(q.id == post.id))
            comments := db.comments.filter (fun c => !(c.postId == post.id)) },
          ApiResult.ok ())
      else
        (db, ApiResult.forbidden)

/-- CommentCreateSerializer.validate_post (serializers.py): reject the
target post when it is not active. -/
def validate_post (p : Post) : Except String Post :=
  if !p.active then
    Except.error "Comments can only be created on active posts."
  else
    Except.ok p

/-- POST /api/comments/ (CommentCreateAPIView + CommentCreateSerializer):
permission AllowAny; the post field is a primary-key lookup over all
posts; validate_post requires the post active; create sets user from the
request when authenticated and leaves the model default
is_approved=false. Parameters newId and now stand for the fresh primary
key and the clock. -/
def commentCreateAPIView (db : Db) (caller : Option Nat) (postPk : Nat)
    (content : String) (newId now : Nat) : Db × ApiResult Comment :=
  match db.posts.find? (fun p => p.id == postPk) with
  | none => (db, ApiResult.badRequest "Invalid pk")
  | some p =>
    match validate_post p with
    | Except.error msg => (db, ApiResult.badRequest msg)
    | Except.ok p =>
      let c : Comment :=
        { id := newId, postId := p.id, content := content,
          user := caller, created := now, is_approved := false }
      ({ db with comments := db.comments ++ [c] }, ApiResult.ok c)

/-- PostCreateSerializer.create (serializers.py) behind
PostListCreateAPIView with IsAuthenticatedOrReadOnly: an anonymous POST is
rejected; otherwise the author is resolved by linked user — found with a
different name: the stored name is updated; not found: a new Author is
created with the supplied name, the registered email of the user and the
link; the post is created attached to that author with serializer fields
title, content, published_date and model defaults status=draft,
active=true. callerEmail is the registered email of the caller identity;
newAuthorId, newPostId, now stand for fresh keys and the clock. -/
def postListCreateAPIView_create (db : Db) (caller : Option Nat)
    (callerEmail : String) (title content : String) (published_date : Nat)
    (author_name : String) (newAuthorId newPostId now : Nat) :
    Db × ApiResult Post :=
  match caller with
  | none => (db, ApiResult.forbidden)
  | some u =>
    let mk (aid : Nat) : Post :=
      { id := newPostId, title := title, content := content,
        published_date := published_date, authorId := aid,
        status := Status.draft, active := true, created_at := now }
    match db.authors.find? (fun a => a.user == some u) with
    | some a =>
      let a2 := if a.name == author_name then a else { a with name := author_name }
      let db2 := { db with
        authors := db.authors.map (fun (x : Author) => if x.id == a.id then a2 else x) }
      let p := mk a.id
      ({ db2 with posts := db2.posts ++ [p] }, ApiResult.ok p)
    | none =>
      let a : Author :=
        { id := newAuthorId, name := author_name, email := callerEmail,
          user := some u }
      let p := mk newAuthorId
      ({ db with authors := db.authors ++ [a], posts := db.posts ++ [p] },
        ApiResult.ok p)

/-- Lower-cased code point of a character (ASCII case folding). -/
def lowerCode (c : Char) : Nat :=
  if 65 ≤ c.toNat ∧ c.toNat ≤ 90 then c.toNat + 32 else c.toNat

/-- needle occurs as a contiguous sublist of hay. -/
def codesContain (hay needle : List Nat) : Bool :=
  (List.range (hay.length + 1)).any (fun i => needle.isPrefixOf (hay.drop i))

/-- The icontains lookup of the ORM: case-insensitive substring match. -/
def icontains (hay needle : String) : Bool :=
  codesContain (hay.data.map lowerCode) (needle.data.map lowerCode)

/-- The query parameters the spec names for GET /api/posts/. -/
structure QueryParams where
  title : Option String
  author__name : Option String
  published_date : Option Nat
  published_date__gte : Option Nat
  published_date__lte : Option Nat
deriving DecidableEq, Repr

/-- The empty query string. -/
def QueryParams.none' : QueryParams :=
  { title := none, author__name := none, published_date := none,
    published_date__gte := none, published_date__lte := none }

/-- What PostListCreateAPIView actually configures (views.py):
filterset_fields = [author__name, published_date], the plain list form,
which makes DjangoFilterBackend generate exact-match filters for exactly
those two parameter names. Any other query parameter — title,
published_date__gte, published_date__lte — is not a declared filter and
is silently ignored. PostFilter from filters.py is never referenced. -/
def filterset_fields_apply (db : Db) (params : QueryParams) (qs : List Post) :
    List Post :=
  (qs.filter (fun p =>
    match params.author__name with
    | none => true
    | some s =>
      match postAuthor db p with
      | none => false
      | some a => a.name == s)).filter (fun p =>
    match params.published_date with
    | none => true
    | some d => p.published_date == d)

/-- GET /api/posts/ list results (before pagination and ordering, which
permute and window but never add or drop a row). -/
def postListCreateAPIView_list (db : Db) (params : QueryParams) : List Post :=
  filterset_fields_apply db params (postListCreateAPIView_queryset db)

/-- PostFilter (filters.py): title icontains, published_date__gte,
published_date__lte, author name icontains, conjunctive. This FilterSet
is defined in the repository but no view installs it (views.py sets
filterset_fields instead of filterset_class), so it is dead code. -/
def PostFilter_apply (db : Db) (params : QueryParams) (qs : List Post) :
    List Post :=
  ((((qs.filter (fun p =>
      match params.title with
      | none => true
      | some s => icontains p.title s)).filter (fun p =>
      match params.published_date__gte with
      | none => true
      | some d => decide (d ≤ p.published_date))).filter (fun p =>
      match params.published_date__lte with
      | none => true
      | some d => decide (p.published_date ≤ d))).filter (fun p =>
      match params.author__name with
      | none => true
      | some s =>
        match postAuthor db p with
        | none => false
        | some a => icontains a.name s))

/-- The class names defined at top level of blog/views.py. -/
def views_module_names : List String :=
  ["PostListView", "PostDetailView", "PostCreateView", "IsOwnerOrReadOnly",
   "PostListCreateAPIView", "PostDetailAPIView", "PostUpdateAPIView",
   "PostDeleteAPIView", "CommentCreateAPIView"]

/-- The attributes of the views module that blog/urls.py reads, one per
path entry, in order. -/
def urls_view_references : List String :=
  ["PostListView", "PostDetailView", "PostCreateView", "PostEditView",
   "PostDeleteView", "PostListCreateAPIView", "PostDetailAPIView",
   "PostUpdateAPIView", "PostDeleteAPIView", "CommentCreateAPIView"]

/-- Importing blog/urls.py evaluates every views.Name attribute access in
urlpatterns; the import succeeds exactly when each referenced name is
defined in the views module. -/
def urls_module_imports : Bool :=
  urls_view_references.all (fun n => views_module_names.contains n)

/-! Concrete fixtures, mirroring the pytest fixtures in
blog/tests/test_blog.py: a user with a linked author, an active published
post, an inactive post, an old post, plus an active draft post. -/

/-- Fixture author linked to user 1 (name Test Author). -/
def testAuthor : Author :=
  { id := 10, name := "Test Author", email := "test@example.com",
    user := some 1 }

/-- Fixture: active published post owned by testAuthor. -/
def activePost : Post :=
  { id := 100, title := "Active Post", content := "This is an active post",
    published_date := 100, authorId := 10, status := Status.published,
    active := true, created_at := 0 }

/-- Fixture: inactive published post owned by testAuthor. -/
def inactivePost : Post :=
  { id := 101, title := "Inactive Post", content := "This post is inactive",
    published_date := 100, authorId := 10, status := Status.published,
    active := false, created_at := 0 }

/-- Fixture: draft post that is active. -/
def draftPost : Post :=
  { id := 102, title := "Draft Post", content := "This post is a draft",
    published_date := 100, authorId := 10, status := Status.draft,
    active := true, created_at := 0 }

/-- Fixture: old active published post (early published_date). -/
def oldPost : Post :=
  { id := 103, title := "Old Post", content := "This is an old post",
    published_date := 1, authorId := 10, status := Status.published,
    active := true, created_at := 0 }

/-- Fixture database with the author and the four posts. -/
def sampleDb : Db :=
  { authors := [testAuthor],
    posts := [activePost, inactivePost, draftPost, oldPost],
    comments := [] }

/-- C3: a post with active = false appears in no public list queryset and
is returned by no public detail lookup, web or API, whatever its status. -/
theorem inactive_posts_hidden_everywhere (db : Db) (p : Post) (pk : Nat)
    (h : p.active = false) :
    p ∉ postListView_queryset db ∧
    p ∉ postDetailView_queryset db ∧
    p ∉ postListCreateAPIView_queryset db ∧
    p ∉ postDetailAPIView_queryset db ∧
    postDetailView_get_object db pk ≠ some p ∧
    postDetailAPIView_get_object db pk ≠ some p := by
  have hweb : p ∉ postListView_queryset db := by
    intro hmem
    have := (List.mem_filter.mp hmem).2
    simp [h] at this
  have hapi : p ∉ postListCreateAPIView_queryset db := by
    intro hmem
    have := (List.mem_filter.mp hmem).2
    simp [h] at this
  refine ⟨hweb, hweb, hapi, hapi, ?_, ?_⟩
  · intro hfind
    exact hweb (List.mem_of_find?_eq_some hfind)
  · intro hfind
    exact hapi (List.mem_of_find?_eq_some hfind)

/-- Witness for C3 at the inactive fixture post. -/
theorem inactive_posts_hidden_everywhere_witness :
    inactivePost ∉ postListView_queryset sampleDb ∧
    inactivePost ∉ postDetailView_queryset sampleDb ∧
    inactivePost ∉ postListCreateAPIView_queryset sampleDb ∧
    inactivePost ∉ postDetailAPIView_queryset sampleDb ∧
    postDetailView_get_object sampleDb 101 ≠ some inactivePost ∧
    postDetailAPIView_get_object sampleDb 101 ≠ some inactivePost :=
  inactive_posts_hidden_everywhere sampleDb inactivePost 101 rfl

/-- C4 counterexample: the claim says a draft post is excluded from every
public list and detail query, web and API; but the API queryset filters
on active only, so the active draft fixture post is listed by
GET /api/posts/ and retrievable via the API detail endpoint. -/
theorem draft_post_visible_in_api :
    draftPost.status = Status.draft ∧
    draftPost ∈ postListCreateAPIView_list sampleDb QueryParams.none' ∧
    postDetailAPIView_get_object sampleDb 102 = some draftPost := by
  refine ⟨rfl, ?_, ?_⟩ <;> decide

/-- C4 amended: a draft post is excluded from the server-rendered (web)
list and detail queries, which require published and active; the API
list/detail queryset filters on active only, so an active draft post is
included there. -/
theorem draft_posts_hidden_on_web_only (db : Db) (p : Post) (pk : Nat)
    (h : p.status = Status.draft) :
    p ∉ postListView_queryset db ∧
    p ∉ postDetailView_queryset db ∧
    postDetailView_get_object db pk ≠ some p ∧
    (p ∈ db.posts → p.active = true → p ∈ postListCreateAPIView_queryset db) := by
  have hweb : p ∉ postListView_queryset db := by
    intro hmem
    have := (List.mem_filter.mp hmem).2
    simp [h] at this
  refine ⟨hweb, hweb, ?_, ?_⟩
  · intro hfind
    exact hweb (List.mem_of_find?_eq_some hfind)
  · intro hmem hact
    exact List.mem_filter.mpr ⟨hmem, by simp [hact]⟩

/-- Witness for the amended C4 at the draft fixture post. -/
theorem draft_posts_hidden_on_web_only_witness :
    draftPost ∉ postListView_queryset sampleDb ∧
    draftPost ∉ postDetailView_queryset sampleDb ∧
    postDetailView_get_object sampleDb 102 ≠ some draftPost ∧
    (draftPost ∈ sampleDb.posts → draftPost.active = true →
      draftPost ∈ postListCreateAPIView_queryset sampleDb) :=
  draft_posts_hidden_on_web_only sampleDb draftPost 102 rfl

/-- Query string published_date__gte=50 and nothing else. -/
def gteParams : QueryParams :=
  { QueryParams.none' with published_date__gte := some 50 }

/-- C5: the claim (and the repository's own test
test_api_post_list_date_range_filtering, and the PostFilter class in
filters.py) says a published_date__gte parameter excludes every post
published earlier; but PostListCreateAPIView configures
filterset_fields = [author__name, published_date] and never installs
PostFilter, so the parameter is not a declared filter and is ignored: the
old fixture post (published_date 1 < 50) is still returned. The dead
PostFilter would have excluded it. -/
theorem date_gte_param_ignored_by_api :
    oldPost.published_date < 50 ∧
    oldPost ∈ postListCreateAPIView_list sampleDb gteParams ∧
    oldPost ∉ PostFilter_apply sampleDb gteParams
      (postListCreateAPIView_queryset sampleDb) := by
  refine ⟨by decide, by decide, by decide⟩

/-- Supporting fact for C5: the PostFilter declared in filters.py does
satisfy the claimed bound — every post it returns under a
published_date__gte constraint has published_date at least the bound (and
symmetrically at most the published_date__lte bound). -/
theorem PostFilter_gte_excludes_earlier (db : Db) (params : QueryParams)
    (qs : List Post) (p : Post) (d : Nat)
    (hgte : params.published_date__gte = some d)
    (hmem : p ∈ PostFilter_apply db params qs) :
    d ≤ p.published_date := by
  unfold PostFilter_apply at hmem
  have h1 := (List.mem_filter.mp hmem).1
  have h2 := (List.mem_filter.mp h1).1
  have h3 := (List.mem_filter.mp h2).2
  rw [hgte] at h3
  exact of_decide_eq_true h3

/-- Witness for the supporting C5 fact at the recent fixture post. -/
theorem PostFilter_gte_excludes_earlier_witness :
    (50 : Nat) ≤ activePost.published_date :=
  PostFilter_gte_excludes_earlier sampleDb gteParams
    (postListCreateAPIView_queryset sampleDb) activePost 50 rfl (by decide)

/-- Query string author__name=test and nothing else. -/
def authorSubstringParams : QueryParams :=
  { QueryParams.none' with author__name := some "test" }

/-- Query string title=zzz and nothing else. -/
def titleParams : QueryParams :=
  { QueryParams.none' with title := some "zzz" }

/-- C6: the claim says the author__name parameter is a case-insensitive
substring filter and title likewise; but the view generates an exact
filter for author__name (filterset_fields list form) and declares no
title filter at all. The substring test is itself satisfied (icontains of
Test Author and test holds, and the dead PostFilter keeps the post), yet
the live endpoint drops the post under author__name=test, and a title
parameter changes nothing. -/
theorem author_name_filter_exact_not_substring :
    icontains "Test Author" "test" = true ∧
    activePost ∈ postListCreateAPIView_queryset sampleDb ∧
    activePost ∉ postListCreateAPIView_list sampleDb authorSubstringParams ∧
    activePost ∈ PostFilter_apply sampleDb authorSubstringParams
      (postListCreateAPIView_queryset sampleDb) ∧
    postListCreateAPIView_list sampleDb titleParams =
      postListCreateAPIView_list sampleDb QueryParams.none' := by
  refine ⟨by decide, by decide, by decide, by decide, by decide⟩

/-- Helper: for a non-safe method, has_object_permission holds exactly
when the caller is authenticated and equals the linked user of the owning
author. -/
theorem write_permission_iff (db : Db) (caller : Option Nat) (p : Post)
    (m : Method) (hm : m.isSafe = false) :
    has_object_permission db m caller p = true ↔
      ∃ u a, caller = some u ∧ postAuthor db p = some a ∧ a.user = some u := by
  cases hA : postAuthor db p with
  | none =>
    constructor
    · intro h
      exfalso
      unfold has_object_permission at h
      rw [hm] at h
      simp [hA] at h
    · rintro ⟨u, a, hu, ha, hua⟩
      cases ha
  | some a =>
    cases caller with
    | none =>
      constructor
      · intro h
        exfalso
        unfold has_object_permission at h
        rw [hm] at h
        simp [hA] at h
      · rintro ⟨u, a2, hu, ha, hua⟩
        cases hu
    | some u =>
      constructor
      · intro h
        unfold has_object_permission at h
        rw [hm] at h
        simp [hA] at h
        exact ⟨u, a, rfl, rfl, h⟩
      · rintro ⟨u2, a2, hu, ha, hua⟩
        cases hu
        cases ha
        unfold has_object_permission
        rw [hm]
        simp [hA, hua]

/-- C1: with the target post present, a PATCH via PostUpdateAPIView or a
DELETE via PostDeleteAPIView succeeds only when the authenticated caller
equals the linked user of the owning author; every other identity,
anonymous included, gets 403 with the database unchanged. -/
theorem owner_only_mutation (db : Db) (caller : Option Nat) (pk : Nat)
    (body : Body) (post : Post)
    (hfind : db.posts.find? (fun p => p.id == pk) = some post) :
    ((∃ p2, (postUpdateAPIView db caller pk body).snd = ApiResult.ok p2) →
      ∃ u a, caller = some u ∧ postAuthor db post = some a ∧ a.user = some u) ∧
    ((postDeleteAPIView db caller pk).snd = ApiResult.ok () →
      ∃ u a, caller = some u ∧ postAuthor db post = some a ∧ a.user = some u) ∧
    ((¬ ∃ u a, caller = some u ∧ postAuthor db post = some a ∧ a.user = some u) →
      postUpdateAPIView db caller pk body = (db, ApiResult.forbidden) ∧
      postDeleteAPIView db caller pk = (db, ApiResult.forbidden)) := by
  by_cases hc : ∃ u a, caller = some u ∧ postAuthor db post = some a ∧
      a.user = some u
  · exact ⟨fun _ => hc, fun _ => hc, fun hne => absurd hc hne⟩
  · have hupd : postUpdateAPIView db caller pk body = (db, ApiResult.forbidden) := by
      unfold postUpdateAPIView
      cases caller with
      | none => simp [isAuthenticated]
      | some u =>
        have hperm : has_object_permission db Method.PATCH (some u) post = false := by
          cases h2 : has_object_permission db Method.PATCH (some u) post with
          | false => rfl
          | true =>
            exact absurd
              ((write_permission_iff db (some u) post Method.PATCH rfl).mp h2) hc
        simp [isAuthenticated, hfind, hperm]
    have hdele : postDeleteAPIView db caller pk = (db, ApiResult.forbidden) := by
      unfold postDeleteAPIView
      cases caller with
      | none => simp [isAuthenticated]
      | some u =>
        have hperm : has_object_permission db Method.DELETE (some u) post = false := by
          cases h2 : has_object_permission db Method.DELETE (some u) post with
          | false => rfl
          | true =>
            exact absurd
              ((write_permission_iff db (some u) post Method.DELETE rfl).mp h2) hc
        simp [isAuthenticated, hfind, hperm]
    refine ⟨?_, ?_, fun _ => ⟨hupd, hdele⟩⟩
    · rintro ⟨p2, h⟩
      rw [hupd] at h
      simp at h
    · intro h
      rw [hdele] at h
      simp at h

/-- Witness for C1 at the fixture database with an anonymous caller. -/
theorem owner_only_mutation_witness :
    ((∃ p2, (postUpdateAPIView sampleDb none 100 []).snd = ApiResult.ok p2) →
      ∃ u a, (none : Option Nat) = some u ∧
        postAuthor sampleDb activePost = some a ∧ a.user = some u) ∧
    ((postDeleteAPIView sampleDb none 100).snd = ApiResult.ok () →
      ∃ u a, (none : Option Nat) = some u ∧
        postAuthor sampleDb activePost = some a ∧ a.user = some u) ∧
    ((¬ ∃ u a, (none : Option Nat) = some u ∧
        postAuthor sampleDb activePost = some a ∧ a.user = some u) →
      postUpdateAPIView sampleDb none 100 [] = (sampleDb, ApiResult.forbidden) ∧
      postDeleteAPIView sampleDb none 100 = (sampleDb, ApiResult.forbidden)) :=
  owner_only_mutation sampleDb none 100 [] activePost rfl

/-- C9: a successful PATCH through PostUpdateAPIView can change only
title, content and active: whatever keys the body carries, the saved
record keeps the id, authorId, status, published_date and created_at of
the stored post, the store is the pointwise save of that record, and
every other row is untouched. -/
theorem update_changes_only_declared_fields (db : Db) (caller : Option Nat)
    (pk : Nat) (body : Body) (post p2 : Post) (db2 : Db)
    (hfind : db.posts.find? (fun p => p.id == pk) = some post)
    (hok : postUpdateAPIView db caller pk body = (db2, ApiResult.ok p2)) :
    p2.id = post.id ∧
    p2.authorId = post.authorId ∧
    p2.status = post.status ∧
    p2.published_date = post.published_date ∧
    p2.created_at = post.created_at ∧
    db2 = savePost db p2 ∧
    ∀ q ∈ db.posts, q.id ≠ post.id → q ∈ db2.posts := by
  unfold postUpdateAPIView at hok
  cases caller with
  | none => simp [isAuthenticated] at hok
  | some u =>
    rw [hfind] at hok
    simp only [isAuthenticated, Option.isSome_some, Bool.not_true,
      Bool.false_eq_true, if_false] at hok
    cases hperm : has_object_permission db Method.PATCH (some u) post with
    | false => simp [hperm] at hok
    | true =>
      rw [hperm] at hok
      simp only [if_true] at hok
      cases hval : postUpdateSerializer_validate body with
      | none => simp [hval] at hok
      | some d =>
        rw [hval] at hok
        simp only [Prod.mk.injEq, ApiResult.ok.injEq] at hok
        obtain ⟨hdb2, hp2⟩ := hok
        subst hp2
        refine ⟨rfl, rfl, rfl, rfl, rfl, hdb2.symm, ?_⟩
        intro q hq hne
        rw [← hdb2]
        unfold savePost
        simp only [List.mem_map]
        refine ⟨q, hq, ?_⟩
        have : (q.id == (applyUpdate post d).id) = false := by

          simp [applyUpdate, hne]
        simp [this]

/-- The body of the witness PATCH for C9: a new title together with keys
the update serializer does not declare (status, published_date), which
must be dropped. -/
def c9body : Body :=
  [("title", FieldVal.str "New Title"),
   ("status", FieldVal.str "published"),
   ("published_date", FieldVal.num 999)]

/-- The record the witness PATCH stores. -/
def c9post : Post := { activePost with title := "New Title" }

/-- Witness for C9: the owner PATCH with c9body over the fixture
database. -/
theorem update_changes_only_declared_fields_witness :
    c9post.id = activePost.id ∧
    c9post.authorId = activePost.authorId ∧
    c9post.status = activePost.status ∧
    c9post.published_date = activePost.published_date ∧
    c9post.created_at = activePost.created_at ∧
    savePost sampleDb c9post = savePost sampleDb c9post ∧
    ∀ q ∈ sampleDb.posts, q.id ≠ activePost.id → q ∈ (savePost sampleDb c9post).posts :=
  update_changes_only_declared_fields sampleDb (some 1) 100 c9body activePost
    c9post (savePost sampleDb c9post) rfl (by decide)

/-- C2: with the target post present, a comment POST on an inactive post
fails for every caller with a 400 whose message is the fixed sentence and
the store unchanged; on an active post it succeeds for every caller,
anonymous included, appending exactly one comment. -/
theorem comment_requires_active_post (db : Db) (caller : Option Nat)
    (postPk : Nat) (content : String) (newId now : Nat) (p : Post)
    (hfind : db.posts.find? (fun q => q.id == postPk) = some p) :
    (p.active = false →
      commentCreateAPIView db caller postPk content newId now =
        (db, ApiResult.badRequest
          "Comments can only be created on active posts.")) ∧
    (p.active = true →
      ∃ c, commentCreateAPIView db caller postPk content newId now =
        ({ db with comments := db.comments ++ [c] }, ApiResult.ok c)) := by
  unfold commentCreateAPIView
  rw [hfind]
  constructor
  · intro h
    simp [validate_post, h]
  · intro h
    refine ⟨{ id := newId, postId := p.id, content := content,
              user := caller, created := now, is_approved := false }, ?_⟩
    simp [validate_post, h]

/-- Witness for C2: the inactive branch at the inactive fixture post with
an anonymous caller, and the active branch at the active fixture post. -/
theorem comment_requires_active_post_witness :
    (inactivePost.active = false →
      commentCreateAPIView sampleDb none 101 "hi" 7 3 =
        (sampleDb, ApiResult.badRequest
          "Comments can only be created on active posts.")) ∧
    (inactivePost.active = true →
      ∃ c, commentCreateAPIView sampleDb none 101 "hi" 7 3 =
        ({ sampleDb with comments := sampleDb.comments ++ [c] },
          ApiResult.ok c)) :=
  comment_requires_active_post sampleDb none 101 "hi" 7 3 inactivePost rfl

/-- C8: a successful comment POST stores user equal to the caller
identity — null for an anonymous caller, the caller for an authenticated
one — and is_approved false in every case: the body cannot set it. -/
theorem comment_user_and_approval (db : Db) (caller : Option Nat)
    (postPk : Nat) (content : String) (newId now : Nat) (db2 : Db)
    (c : Comment)
    (hok : commentCreateAPIView db caller postPk content newId now =
      (db2, ApiResult.ok c)) :
    c.user = caller ∧ c.is_approved = false ∧ c.content = content ∧
    db2 = { db with comments := db.comments ++ [c] } := by
  unfold commentCreateAPIView at hok
  cases hfind : db.posts.find? (fun q => q.id == postPk) with
  | none => simp [hfind] at hok
  | some p =>
    rw [hfind] at hok
    cases hp : p.active with
    | false => simp [validate_post, hp] at hok
    | true =>
      simp only [validate_post, hp, Bool.not_true, Bool.false_eq_true,
        if_false, Prod.mk.injEq, ApiResult.ok.injEq] at hok
      obtain ⟨hdb2, hc⟩ := hok
      subst hc
      exact ⟨rfl, rfl, rfl, hdb2.symm⟩

/-- Witness for C8: an anonymous comment on the active fixture post. -/
theorem comment_user_and_approval_witness :
    ({ id := 7, postId := 100, content := "hi", user := none, created := 3,
        is_approved := false } : Comment).user = (none : Option Nat) ∧
    ({ id := 7, postId := 100, content := "hi", user := none, created := 3,
        is_approved := false } : Comment).is_approved = false ∧
    ({ id := 7, postId := 100, content := "hi", user := none, created := 3,
        is_approved := false } : Comment).content = "hi" ∧
    ({ sampleDb with comments := sampleDb.comments ++
        [{ id := 7, postId := 100, content := "hi", user := none,
           created := 3, is_approved := false }] } : Db) =
      { sampleDb with comments := sampleDb.comments ++
        [{ id := 7, postId := 100, content := "hi", user := none,
           created := 3, is_approved := false }] } :=
  comment_user_and_approval sampleDb none 100 "hi" 7 3
    { sampleDb with comments := sampleDb.comments ++
      [{ id := 7, postId := 100, content := "hi", user := none,
         created := 3, is_approved := false }] }
    { id := 7, postId := 100, content := "hi", user := none, created := 3,
      is_approved := false }
    (by decide)

/-- C7: creating a post as authenticated user u resolves the author by
linked identity. First-time caller (no author linked to u): exactly one
new Author is appended, carrying the supplied display name, the
registered email and the link to u, and the new post is attached to it.
Returning caller: no author is added, the post attaches to the resolved
author, and when the supplied display name differs the stored record now
carries the new name. -/
theorem author_resolution_on_create (db : Db) (u : Nat)
    (callerEmail title content author_name : String)
    (pubDate newAuthorId newPostId now : Nat) :
    (db.authors.find? (fun a => a.user == some u) = none →
      ∃ a p, postListCreateAPIView_create db (some u) callerEmail title
          content pubDate author_name newAuthorId newPostId now =
        ({ db with authors := db.authors ++ [a], posts := db.posts ++ [p] },
          ApiResult.ok p) ∧
        a.name = author_name ∧ a.email = callerEmail ∧ a.user = some u ∧
        p.authorId = a.id) ∧
    (∀ a0, db.authors.find? (fun a => a.user == some u) = some a0 →
      ∃ db2 p, postListCreateAPIView_create db (some u) callerEmail title
          content pubDate author_name newAuthorId newPostId now =
        (db2, ApiResult.ok p) ∧
        db2.authors.length = db.authors.length ∧
        p.authorId = a0.id ∧
        p ∈ db2.posts ∧
        (a0.name ≠ author_name →
          { a0 with name := author_name } ∈ db2.authors)) := by
  constructor
  · intro h
    refine ⟨{ id := newAuthorId, name := author_name, email := callerEmail,
              user := some u },
            { id := newPostId, title := title, content := content,
              published_date := pubDate, authorId := newAuthorId,
              status := Status.draft, active := true, created_at := now },
            ?_, rfl, rfl, rfl, rfl⟩
    simp [postListCreateAPIView_create, h]
  · intro a0 h
    refine ⟨{ db with
              authors := db.authors.map (fun (x : Author) =>
                if x.id == a0.id then
                  (if a0.name == author_name then a0
                   else { a0 with name := author_name })
                else x),
              posts := db.posts ++
                [{ id := newPostId, title := title, content := content,
                   published_date := pubDate, authorId := a0.id,
                   status := Status.draft, active := true,
                   created_at := now }] },
            { id := newPostId, title := title, content := content,
              published_date := pubDate, authorId := a0.id,
              status := Status.draft, active := true, created_at := now },
            ?_, by simp, rfl, by simp, ?_⟩
    · simp [postListCreateAPIView_create, h]
    · intro hne
      have hmem := List.mem_of_find?_eq_some h
      refine List.mem_map.mpr ⟨a0, hmem, ?_⟩
      simp [hne]

/-- Witness for C7: user 5 has no author record in the fixture database;
the create call appends exactly one author and attaches the post. -/
theorem author_resolution_on_create_witness :
    (sampleDb.authors.find? (fun a => a.user == some 5) = none →
      ∃ a p, postListCreateAPIView_create sampleDb (some 5) "new@example.com"
          "T" "C" 5 "New Author" 11 104 9 =
        ({ sampleDb with authors := sampleDb.authors ++ [a],
                         posts := sampleDb.posts ++ [p] }, ApiResult.ok p) ∧
        a.name = "New Author" ∧ a.email = "new@example.com" ∧
        a.user = some 5 ∧ p.authorId = a.id) ∧
    (∀ a0, sampleDb.authors.find? (fun a => a.user == some 5) = some a0 →
      ∃ db2 p, postListCreateAPIView_create sampleDb (some 5) "new@example.com"
          "T" "C" 5 "New Author" 11 104 9 = (db2, ApiResult.ok p) ∧
        db2.authors.length = sampleDb.authors.length ∧
        p.authorId = a0.id ∧
        p ∈ db2.posts ∧
        (a0.name ≠ "New Author" →
          { a0 with name := "New Author" } ∈ db2.authors)) :=
  author_resolution_on_create sampleDb 5 "new@example.com" "T" "C"
    "New Author" 5 11 104 9

/-- C10: blog/urls.py reads views.PostEditView and views.PostDeleteView
for the web edit and delete routes, but the views module defines no such
names, so resolving the URL configuration fails instead of succeeding. -/
theorem url_config_references_missing_views :
    urls_module_imports = false ∧
    "PostEditView" ∈ urls_view_references ∧
    "PostEditView" ∉ views_module_names ∧
    "PostDeleteView" ∈ urls_view_references ∧
    "PostDeleteView" ∉ views_module_names := by
  refine ⟨by decide, by decide, by decide, by decide, by decide⟩

end Blog
